import Mathlib

/-!
Shallow embedding of the product-variant resolver in
src/src/pages/ProductDetail.tsx (component ProductDetail): the data model
(BaseProduct, Variant, cart-line descriptor), the view state, and the four
operations handleVariantSelect, clearVariantSelection, handleQuantityChange
and handleAddToCart, translated line by line from the source. JS numbers
carrying prices are modelled as Rat, stock counts as Nat, the optional base
stock and the Infinity fallback as Option Nat (none = unbounded), and the
JS truthiness of the || operator on possibly-undefined strings as jsOr.
-/

namespace ProductDetail

/-- Base-product media entry (interface ProductMedia). -/
structure ProductMedia where
  media_id : Int
  type : String
  url : String
  sort_order : Int
  deriving Repr, DecidableEq

/-- Base-product meta block (interface ProductMeta). -/
structure ProductMeta where
  short_desc : Option String
  full_desc : Option String
  meta_title : Option String
  meta_desc : Option String
  meta_keywords : Option String
  deriving Repr, DecidableEq

/-- General base-product attribute (interface ProductAttribute). -/
structure ProductAttribute where
  attribute_id : Int
  attribute_name : String
  value_code : Option String
  value_text : String
  value_label : Option String
  is_text_based : Bool
  deriving Repr, DecidableEq

/-- Category reference nested in ProductDetails. -/
structure CategoryRef where
  category_id : Int
  name : String
  deriving Repr, DecidableEq

/-- Brand reference nested in ProductDetails. -/
structure BrandRef where
  brand_id : Int
  name : String
  deriving Repr, DecidableEq

/-- The base product record (interface ProductDetails). The optional base
stock is Option Nat; none models an undefined stock field. -/
structure ProductDetails where
  product_id : Int
  product_name : String
  cost_price : Rat
  selling_price : Rat
  discount_pct : Rat
  description : String
  media : List ProductMedia
  meta : Option ProductMeta
  attributes : List ProductAttribute
  category : Option CategoryRef
  brand : Option BrandRef
  sku : Option String
  stock : Option Nat
  deriving Repr, DecidableEq

/-- A defining attribute of a variant (interface VariantDefiningAttribute). -/
structure VariantDefiningAttribute where
  name : String
  value : String
  deriving Repr, DecidableEq

/-- Variant-specific media entry (interface VariantSpecificMedia). -/
structure VariantSpecificMedia where
  media_id : Int
  media_url : String
  media_type : String
  is_primary : Bool
  display_order : Int
  deriving Repr, DecidableEq

/-- A purchasable variant (interface Variant); an absent media field is
modelled as the empty list, matching the guards in the source. -/
structure Variant where
  variant_id : Int
  product_id : Int
  sku : String
  price : Rat
  stock : Nat
  attributes : List VariantDefiningAttribute
  media : List VariantSpecificMedia
  deriving Repr, DecidableEq

/-- The cart-line descriptor handed to the cart context (interface
CartProduct). The stock field copies currentStock, which may be the
Infinity fallback, hence Option Nat. -/
structure CartProduct where
  id : String
  product_id_ref : Int
  name : String
  price : Rat
  currency : String
  image : String
  stock : Option Nat
  sku : String
  category : String
  brand_name : Option String
  variant_attributes : Option (List VariantDefiningAttribute)
  cost_price : Rat
  discount_pct : Rat
  deriving Repr, DecidableEq

/-- s.toUpperCase(), character by character. -/
def jsToUpper (s : String) : String :=
  String.mk (s.data.map Char.toUpper)

/-- s.toLowerCase(), character by character. -/
def jsToLower (s : String) : String :=
  String.mk (s.data.map Char.toLower)

/-- JS a || b for a possibly-undefined string a: b when a is undefined or
the empty string (both falsy), a otherwise. -/
def jsOr (a : Option String) (b : String) : String :=
  match a with
  | some s => if s = "" then b else s
  | none => b

/-- URL of the first media entry of a non-empty list (media[0].url). -/
def firstUrl (media : List ProductMedia) : String :=
  ((media.head?).map ProductMedia.url).getD ""

/-- media.find(m => m.type === "IMAGE")?.url on base-product media. -/
def findImageUrl (media : List ProductMedia) : Option String :=
  (media.find? (fun m => m.type == "IMAGE")).map ProductMedia.url

/-- The image choice the source applies to base-product media on initial
load (lines 159-163), on variant selection without variant media (lines
246-250) and in clearVariantSelection (lines 258-262): the first entry of
type IMAGE, else the first entry of any type, else the placeholder. -/
def baseImageSelect (media : List ProductMedia) : String :=
  if media.length > 0 then jsOr (findImageUrl media) (firstUrl media)
  else "/placeholder-image.png"

/-- Reshaping of a variant media entry into the ProductMedia shape used by
displayData (handleVariantSelect, lines 217-222). -/
def variantMediaToProductMedia (m : VariantSpecificMedia) : ProductMedia :=
  { media_id := m.media_id
    type := jsToUpper m.media_type
    url := m.media_url
    sort_order := m.display_order }

/-- The /\s+/g -> "-" replacement of the source: each maximal run of
whitespace becomes one dash. The Bool argument records whether the
previous character was whitespace. -/
def dashRunsAux : Bool → List Char → List Char
  | _, [] => []
  | prevWs, c :: rest =>
    if c.isWhitespace then
      if prevWs then dashRunsAux true rest
      else '-' :: dashRunsAux true rest
    else c :: dashRunsAux false rest

/-- s.toLowerCase().replace(/\s+/g, "-") from the value_code construction. -/
def jsSlug (s : String) : String :=
  String.mk (dashRunsAux false (jsToLower s).data)

/-- Mapping of one defining attribute of the selected variant into the
display-attribute shape (handleVariantSelect, lines 228-235). -/
def variantDisplayAttribute (variantId : Int) (index : Nat)
    (attr : VariantDefiningAttribute) : ProductAttribute :=
  { attribute_id := -(variantId * 1000 + (index : Int) + 1)
    attribute_name := attr.name
    value_code := some (jsSlug attr.name ++ "-" ++ jsSlug attr.value)
    value_text := attr.value
    value_label := some attr.value
    is_text_based := true }

/-- The full display-attribute list derived from a variant. -/
def variantDisplayAttributes (v : Variant) : List ProductAttribute :=
  v.attributes.enum.map (fun p => variantDisplayAttribute v.variant_id p.1 p.2)

/-- The merged display record built by handleVariantSelect (lines 212-238):
the base product with selling_price, media, attributes, sku and stock
shadowed by the variant. -/
def mergeVariant (p : ProductDetails) (v : Variant) : ProductDetails :=
  { p with
    selling_price := v.price
    media := if v.media.length > 0 then v.media.map variantMediaToProductMedia
             else p.media
    attributes := variantDisplayAttributes v
    sku := some v.sku
    stock := some v.stock }

/-- The selected-image recompute of handleVariantSelect (lines 242-250):
with variant media present, the primary IMAGE entry, else the first IMAGE
entry, else the first base media entry of any type, else the placeholder;
with no variant media, the base rule. -/
def selectImageForVariant (p : ProductDetails) (v : Variant) : String :=
  if v.media.length > 0 then
    jsOr ((v.media.find? (fun m => m.is_primary && jsToUpper m.media_type == "IMAGE")).map
        VariantSpecificMedia.media_url)
      (jsOr ((v.media.find? (fun m => jsToUpper m.media_type == "IMAGE")).map
          VariantSpecificMedia.media_url)
        (jsOr ((p.media.head?).map ProductMedia.url) "/placeholder-image.png"))
  else baseImageSelect p.media

/-- The local view state of the component: product, quantity, selected
image, selected variant and displayData. displayData is none before the
product details arrive. -/
structure ViewState where
  product : Option ProductDetails
  quantity : Int
  selectedImage : String
  selectedVariant : Option Variant
  displayData : Option ProductDetails
  deriving Repr, DecidableEq

/-- The state established by a successful fetchProductData (lines 141-199)
restricted to the fields the resolver reads: quantity 1, no selected
variant, displayData equal to the base product, selected image by the base
rule. -/
def loadProduct (p : ProductDetails) : ViewState :=
  { product := some p
    quantity := 1
    selectedImage := baseImageSelect p.media
    selectedVariant := none
    displayData := some p }

/-- handleVariantSelect (lines 206-251): no-op without a loaded product;
otherwise select the variant, reset quantity to 1, merge displayData and
recompute the selected image. -/
def handleVariantSelect (s : ViewState) (v : Variant) : ViewState :=
  match s.product with
  | none => s
  | some p =>
    { s with
      selectedVariant := some v
      quantity := 1
      displayData := some (mergeVariant p v)
      selectedImage := selectImageForVariant p v }

/-- clearVariantSelection (lines 253-263): no-op without a loaded product;
otherwise drop the selection, revert displayData to the base product,
reset quantity to 1 and re-derive the selected image from base media. -/
def clearVariantSelection (s : ViewState) : ViewState :=
  match s.product with
  | none => s
  | some p =>
    { s with
      selectedVariant := none
      displayData := some p
      quantity := 1
      selectedImage := baseImageSelect p.media }

/-- handleQuantityChange (lines 302-304): quantity := max(1, prev + amount). -/
def handleQuantityChange (s : ViewState) (amount : Int) : ViewState :=
  { s with quantity := max 1 (s.quantity + amount) }

/-- currentStock of handleAddToCart (line 269): the variant stock when a
variant is selected, else product.stock ?? Infinity, none standing for the
Infinity fallback. -/
def effectiveStock (p : ProductDetails) (sv : Option Variant) : Option Nat :=
  match sv with
  | some v => some v.stock
  | none => p.stock

/-- currentStock < quantity with the Infinity case: always false when the
stock is unbounded. -/
def stockLtQty (st : Option Nat) (q : Int) : Bool :=
  match st with
  | some n => (n : Int) < q
  | none => false

/-- The image field of the cart descriptor (line 288): the primary variant
media entry of any type, else the first variant media entry, else the first
base media entry, else the placeholder. -/
def cartImage (p : ProductDetails) (sv : Option Variant) : String :=
  jsOr ((sv.bind (fun v => v.media.find? (fun m => m.is_primary))).map
      VariantSpecificMedia.media_url)
    (jsOr ((sv.bind (fun v => v.media.head?)).map VariantSpecificMedia.media_url)
      (jsOr ((p.media.head?).map ProductMedia.url) "/placeholder-image.png"))

/-- The cart-line descriptor built on success (lines 280-296). -/
def mkCartProduct (p : ProductDetails) (sv : Option Variant)
    (currentStock : Option Nat) : CartProduct :=
  { id := match sv with
      | some v => toString p.product_id ++ "-" ++ toString v.variant_id
      | none => toString p.product_id
    product_id_ref := p.product_id
    name := match sv with
      | some v => p.product_name ++ " (" ++
          String.intercalate " / " (v.attributes.map VariantDefiningAttribute.value) ++ ")"
      | none => p.product_name
    price := match sv with
      | some v => v.price
      | none => p.selling_price
    currency := "INR"
    image := cartImage p sv
    stock := currentStock
    sku := match sv with
      | some v => v.sku
      | none => jsOr p.sku ("BASE-" ++ toString p.product_id)
    category := jsOr (p.category.map CategoryRef.name) "Uncategorized"
    brand_name := p.brand.map BrandRef.name
    variant_attributes := sv.map Variant.attributes
    cost_price := p.cost_price
    discount_pct := p.discount_pct }

/-- Outcome of one handleAddToCart call: the early return without a
product, the two failure toasts, or the descriptor and quantity handed to
addToCart. -/
inductive CartOutcome where
  | noop : CartOutcome
  | insufficientStock : CartOutcome
  | outOfStock : CartOutcome
  | added : CartProduct → Int → CartOutcome
  deriving Repr, DecidableEq

/-- handleAddToCart (lines 265-300). The checks run in source order: first
currentStock < quantity, then currentStock === 0. The returned state is
the input state: the handler performs no state updates. -/
def handleAddToCart (s : ViewState) : ViewState × CartOutcome :=
  match s.product with
  | none => (s, CartOutcome.noop)
  | some p =>
    let currentStock := effectiveStock p s.selectedVariant
    if stockLtQty currentStock s.quantity then (s, CartOutcome.insufficientStock)
    else if currentStock = some 0 then (s, CartOutcome.outOfStock)
    else (s, CartOutcome.added (mkCartProduct p s.selectedVariant currentStock) s.quantity)

/-- One user-driven resolver operation. -/
inductive Op where
  | select : Variant → Op
  | clear : Op
  | changeQty : Int → Op
  | addCart : Op

/-- The state transition of one operation. -/
def applyOp (s : ViewState) : Op → ViewState
  | Op.select v => handleVariantSelect s v
  | Op.clear => clearVariantSelection s
  | Op.changeQty d => handleQuantityChange s d
  | Op.addCart => (handleAddToCart s).1

/-- Folding a sequence of operations over a state. -/
def applyOps (s : ViewState) (ops : List Op) : ViewState :=
  ops.foldl applyOp s

/-- currentStockForDisplay (line 521): the selected variant stock, else the
optional base stock; none records that no bound is known. -/
def currentStockForDisplay (p : ProductDetails) (sv : Option Variant) : Option Nat :=
  match sv with
  | some v => some v.stock
  | none => p.stock

/-- One click of the quantity increment button (lines 650-657): disabled,
hence a no-op, when a stock bound is known and the quantity already
reached it; otherwise handleQuantityChange(+1). -/
def incrementClick (s : ViewState) : ViewState :=
  match s.product with
  | none => s
  | some p =>
    match currentStockForDisplay p s.selectedVariant with
    | some n => if (n : Int) ≤ s.quantity then s else handleQuantityChange s 1
    | none => handleQuantityChange s 1

/-- The quantity fits the available stock: at most the bound when one is
known, unconstrained when the stock is unbounded. -/
def withinStock : Option Nat → Int → Prop
  | some n, q => q ≤ (n : Int)
  | none, _ => True

instance (st : Option Nat) (q : Int) : Decidable (withinStock st q) :=
  match st with
  | some n => inferInstanceAs (Decidable (q ≤ (n : Int)))
  | none => inferInstanceAs (Decidable True)

/-- The SelectedImage preference order exactly as the claim words it: the
variant media entry flagged primary and of kind IMAGE, else the first
IMAGE entry of the variant media, else the first IMAGE entry of the base
media, else the placeholder. Stated from the claim, for comparison with
selectImageForVariant. -/
def specVariantImageRule (p : ProductDetails) (v : Variant) : String :=
  match (v.media.find? (fun m => m.is_primary && jsToUpper m.media_type == "IMAGE")).map
      VariantSpecificMedia.media_url with
  | some u => u
  | none =>
    match (v.media.find? (fun m => jsToUpper m.media_type == "IMAGE")).map
        VariantSpecificMedia.media_url with
    | some u => u
    | none =>
      match (p.media.find? (fun m => m.type == "IMAGE")).map ProductMedia.url with
      | some u => u
      | none => "/placeholder-image.png"

/-- The IMAGE-preference rule over base media exactly as the claim words
it: the URL of the first media entry of kind IMAGE, else the placeholder
sentinel. Stated from the claim, for comparison with baseImageSelect. -/
def specBaseImageRule (media : List ProductMedia) : String :=
  match findImageUrl media with
  | some u => u
  | none => "/placeholder-image.png"

/-- A possibly-undefined URL with the empty string treated as absent,
matching the falsiness of || on strings. -/
def nonEmptyUrl (u : Option String) : Option String :=
  match u with
  | some s => if s = "" then none else some s
  | none => none

/-- The amended base-media image rule: the URL of the first IMAGE entry,
else the URL of the first media entry of any kind, else the placeholder;
an empty URL counts as absent. Stated from the amended claim, for
comparison with baseImageSelect. -/
def amendedBaseImageRule (media : List ProductMedia) : String :=
  if media = [] then "/placeholder-image.png"
  else (nonEmptyUrl (findImageUrl media)).getD (firstUrl media)

/-- The amended SelectedImage rule: with variant media present, the primary
IMAGE entry, else the first IMAGE entry of the variant media, else the
first base media entry of any kind, else the placeholder; with no variant
media, the first IMAGE entry of the base media, else the first base media
entry, else the placeholder; an empty URL counts as absent at every step.
Stated from the amended claim, for comparison with selectImageForVariant. -/
def amendedVariantImageRule (p : ProductDetails) (v : Variant) : String :=
  if v.media = [] then
    if p.media = [] then "/placeholder-image.png"
    else (nonEmptyUrl (findImageUrl p.media)).getD (firstUrl p.media)
  else
    (nonEmptyUrl ((v.media.find? (fun m => m.is_primary && jsToUpper m.media_type == "IMAGE")).map
        VariantSpecificMedia.media_url)).getD
      ((nonEmptyUrl ((v.media.find? (fun m => jsToUpper m.media_type == "IMAGE")).map
          VariantSpecificMedia.media_url)).getD
        ((nonEmptyUrl ((p.media.head?).map ProductMedia.url)).getD "/placeholder-image.png"))

/-! Concrete records used by counterexamples and witnesses. -/

/-- A base product with two IMAGE media entries and no base stock. -/
def sampleProduct : ProductDetails :=
  { product_id := 10
    product_name := "Shirt"
    cost_price := 25
    selling_price := 18
    discount_pct := 5
    description := "A cotton shirt"
    media := [⟨1, "IMAGE", "a.jpg", 0⟩, ⟨2, "IMAGE", "b.jpg", 1⟩]
    meta := none
    attributes := [⟨7, "Material", none, "Cotton", some "Cotton", true⟩]
    category := some ⟨3, "Apparel"⟩
    brand := some ⟨4, "Acme"⟩
    sku := some "SHIRT-10"
    stock := none }

/-- A variant with stock 3 and no media of its own. -/
def sampleVariant1 : Variant :=
  { variant_id := 1
    product_id := 10
    sku := "SHIRT-10-M"
    price := 20
    stock := 3
    attributes := [⟨"Size", "M"⟩]
    media := [] }

/-- A variant with stock 0. -/
def sampleVariant0 : Variant :=
  { variant_id := 2
    product_id := 10
    sku := "SHIRT-10-L"
    price := 22
    stock := 0
    attributes := [⟨"Size", "L"⟩]
    media := [] }

/-- A base product whose media holds a single VIDEO entry and no IMAGE. -/
def videoOnlyProduct : ProductDetails :=
  { sampleProduct with
    product_id := 12
    media := [⟨8, "VIDEO", "v.mp4", 0⟩] }

/-- A base product whose first media entry is a VIDEO, followed by an
IMAGE. -/
def videoFirstProduct : ProductDetails :=
  { sampleProduct with
    product_id := 11
    media := [⟨5, "VIDEO", "v.mp4", 0⟩, ⟨6, "IMAGE", "a.jpg", 1⟩] }

/-- A variant whose media holds a single VIDEO entry and no IMAGE. -/
def videoOnlyVariant : Variant :=
  { variant_id := 9
    product_id := 11
    sku := "SHIRT-11-C"
    price := 20
    stock := 2
    attributes := [⟨"Style", "Clip"⟩]
    media := [⟨21, "clip.mp4", "VIDEO", true, 0⟩] }

/-- The loaded view with sampleVariant1 selected. -/
def selectedState : ViewState :=
  handleVariantSelect (loadProduct sampleProduct) sampleVariant1

/-- The loaded view with the zero-stock variant selected. -/
def zeroStockState : ViewState :=
  handleVariantSelect (loadProduct sampleProduct) sampleVariant0

/-! Helper lemmas shared by several developments. -/

/-- handleAddToCart never changes the view state: every branch returns the
input state. -/
theorem handleAddToCart_state_eq (s : ViewState) : (handleAddToCart s).1 = s := by
  unfold handleAddToCart
  cases hp : s.product with
  | none => rfl
  | some p =>
    dsimp only
    split
    · rfl
    · split <;> rfl

/-- jsOr written through nonEmptyUrl. -/
theorem jsOr_eq (a : Option String) (b : String) :
    jsOr a b = (nonEmptyUrl a).getD b := by
  cases a with
  | none => rfl
  | some s => by_cases h : s = "" <;> simp [jsOr, nonEmptyUrl, h]

/-- The image recompute of the source coincides with the amended rule. -/
theorem selectImage_eq_amended (p : ProductDetails) (v : Variant) :
    selectImageForVariant p v = amendedVariantImageRule p v := by
  unfold selectImageForVariant amendedVariantImageRule baseImageSelect
  by_cases hv : v.media = []
  · have h0 : ¬ v.media.length > 0 := by simp [hv]
    rw [if_neg h0, if_pos hv]
    by_cases hp : p.media = []
    · have h1 : ¬ p.media.length > 0 := by simp [hp]
      rw [if_neg h1, if_pos hp]
    · have h1 : p.media.length > 0 := List.length_pos.mpr hp
      rw [if_pos h1, if_neg hp, jsOr_eq]
  · have h1 : v.media.length > 0 := List.length_pos.mpr hv
    rw [if_pos h1, if_neg hv, jsOr_eq, jsOr_eq, jsOr_eq]

/-- The base image choice of the source coincides with the amended
base-media rule. -/
theorem baseImageSelect_eq_amended (media : List ProductMedia) :
    baseImageSelect media = amendedBaseImageRule media := by
  unfold baseImageSelect amendedBaseImageRule
  by_cases h : media = []
  · have h0 : ¬ media.length > 0 := by simp [h]
    rw [if_neg h0, if_pos h]
  · have h1 : media.length > 0 := List.length_pos.mpr h
    rw [if_pos h1, if_neg h, jsOr_eq]

/-- The coherence predicate of the display merge: the product is loaded and
displayData is exactly the base product with no selection, or exactly the
variant merge of the selection. -/
def coherent (p : ProductDetails) (s : ViewState) : Prop :=
  s.product = some p ∧
    ((s.selectedVariant = none ∧ s.displayData = some p) ∨
      ∃ v, s.selectedVariant = some v ∧ s.displayData = some (mergeVariant p v))

/-- Every operation preserves coherence. -/
theorem coherent_applyOp (p : ProductDetails) (s : ViewState) (o : Op)
    (h : coherent p s) : coherent p (applyOp s o) := by
  obtain ⟨hp, hd⟩ := h
  cases o with
  | select v =>
    unfold applyOp handleVariantSelect
    rw [hp]
    exact ⟨rfl, Or.inr ⟨v, rfl, rfl⟩⟩
  | clear =>
    unfold applyOp clearVariantSelection
    rw [hp]
    exact ⟨rfl, Or.inl ⟨rfl, rfl⟩⟩
  | changeQty d =>
    exact ⟨hp, hd⟩
  | addCart =>
    unfold applyOp
    rw [handleAddToCart_state_eq]
    exact ⟨hp, hd⟩

/-- Coherence is preserved by any operation sequence. -/
theorem coherent_applyOps (p : ProductDetails) (ops : List Op) :
    ∀ s : ViewState, coherent p s → coherent p (applyOps s ops) := by
  induction ops with
  | nil => intro s h; exact h
  | cons o rest ih =>
    intro s h
    exact ih (applyOp s o) (coherent_applyOp p s o h)

/-- Every operation keeps the quantity at least 1. -/
theorem quantity_ge_one_applyOp (s : ViewState) (o : Op)
    (h : 1 ≤ s.quantity) : 1 ≤ (applyOp s o).quantity := by
  cases o with
  | select v =>
    unfold applyOp handleVariantSelect
    cases hp : s.product with
    | none => exact h
    | some p => exact le_refl 1
  | clear =>
    unfold applyOp clearVariantSelection
    cases hp : s.product with
    | none => exact h
    | some p => exact le_refl 1
  | changeQty d =>
    exact le_max_left 1 _
  | addCart =>
    unfold applyOp
    rw [handleAddToCart_state_eq]
    exact h

/-- The quantity lower bound is preserved by any operation sequence. -/
theorem quantity_ge_one_applyOps (ops : List Op) :
    ∀ s : ViewState, 1 ≤ s.quantity → 1 ≤ (applyOps s ops).quantity := by
  induction ops with
  | nil => intro s h; exact h
  | cons o rest ih =>
    intro s h
    exact ih (applyOp s o) (quantity_ge_one_applyOp s o h)

/-- C1: at the state with the zero-stock variant selected and quantity 1,
the effective stock is 0, yet handleAddToCart reports InsufficientStock,
not OutOfStock: the currentStock < quantity check runs before the
currentStock === 0 check, so the OutOfStock branch never fires for
quantity at least 1, against the documented order of the preconditions. -/
theorem addToCart_zero_stock_emits_insufficient :
    effectiveStock sampleProduct zeroStockState.selectedVariant = some 0 ∧
      zeroStockState.quantity = 1 ∧
      (handleAddToCart zeroStockState).2 = CartOutcome.insufficientStock ∧
      (handleAddToCart zeroStockState).2 ≠ CartOutcome.outOfStock := by decide

/-- C2 counterexample: with a selected variant of stock 3 and quantity 1,
changeQuantity(+5) yields quantity 6, exceeding the known stock bound:
handleQuantityChange applies no stock clamp. -/
theorem quantity_change_no_stock_clamp :
    currentStockForDisplay sampleProduct selectedState.selectedVariant = some 3 ∧
      selectedState.quantity = 1 ∧
      (handleQuantityChange selectedState 5).quantity = 6 ∧
      ¬ (handleQuantityChange selectedState 5).quantity ≤ 3 := by decide

/-- C2 amended: changeQuantity(d) produces exactly max(1, q + d) and never
a value below 1; the stock ceiling is enforced only by the increment
button, which is disabled at the bound, so a click never pushes the
quantity past a known stock bound it already respects. -/
theorem quantity_change_amended (s : ViewState) (d : Int) (p : ProductDetails)
    (n : Nat) (hp : s.product = some p)
    (hst : currentStockForDisplay p s.selectedVariant = some n)
    (hq : s.quantity ≤ (n : Int)) (h1 : 1 ≤ s.quantity) :
    (handleQuantityChange s d).quantity = max 1 (s.quantity + d) ∧
      1 ≤ (handleQuantityChange s d).quantity ∧
      (incrementClick s).quantity ≤ (n : Int) := by
  refine ⟨rfl, le_max_left 1 _, ?_⟩
  unfold incrementClick
  rw [hp]
  dsimp only
  rw [hst]
  dsimp only
  split
  · exact hq
  · unfold handleQuantityChange
    dsimp only
    omega

/-- C2 amended, witness at the selected-variant state with stock 3,
quantity 1, delta -100. -/
theorem quantity_change_amended_witness :
    (handleQuantityChange selectedState (-100)).quantity =
        max 1 (selectedState.quantity + (-100)) ∧
      1 ≤ (handleQuantityChange selectedState (-100)).quantity ∧
      (incrementClick selectedState).quantity ≤ ((3 : Nat) : Int) :=
  quantity_change_amended selectedState (-100) sampleProduct 3 rfl (by decide)
    (by decide) (by decide)

/-- C3: with a product loaded, select(V) sets displayData to the variant
merge, resets the quantity to 1, and the merge carries the variant price,
stock, sku, the variant media when non-empty (else the base media) and the
variant defining attributes in display shape. -/
theorem select_display_effects (s : ViewState) (p : ProductDetails) (v : Variant)
    (h : s.product = some p) :
    (handleVariantSelect s v).displayData = some (mergeVariant p v) ∧
      (handleVariantSelect s v).quantity = 1 ∧
      (mergeVariant p v).selling_price = v.price ∧
      (mergeVariant p v).stock = some v.stock ∧
      (mergeVariant p v).sku = some v.sku ∧
      (mergeVariant p v).media =
        (if v.media.length > 0 then v.media.map variantMediaToProductMedia
         else p.media) ∧
      (mergeVariant p v).attributes = variantDisplayAttributes v := by
  unfold handleVariantSelect
  rw [h]
  exact ⟨rfl, rfl, rfl, rfl, rfl, rfl, rfl⟩

/-- C3, witness at the loaded sample product and its stock-3 variant. -/
theorem select_display_effects_witness :
    (handleVariantSelect (loadProduct sampleProduct) sampleVariant1).displayData =
        some (mergeVariant sampleProduct sampleVariant1) ∧
      (handleVariantSelect (loadProduct sampleProduct) sampleVariant1).quantity = 1 ∧
      (mergeVariant sampleProduct sampleVariant1).selling_price = sampleVariant1.price ∧
      (mergeVariant sampleProduct sampleVariant1).stock = some sampleVariant1.stock ∧
      (mergeVariant sampleProduct sampleVariant1).sku = some sampleVariant1.sku ∧
      (mergeVariant sampleProduct sampleVariant1).media =
        (if sampleVariant1.media.length > 0 then
          sampleVariant1.media.map variantMediaToProductMedia
         else sampleProduct.media) ∧
      (mergeVariant sampleProduct sampleVariant1).attributes =
        variantDisplayAttributes sampleVariant1 :=
  select_display_effects (loadProduct sampleProduct) sampleProduct sampleVariant1 rfl

/-- C4 counterexample: with base media a single VIDEO entry, clear() after
select(V) sets the selected image to that VIDEO URL, while the claimed
IMAGE-preference rule over base media (first IMAGE entry, else the
placeholder) demands the placeholder sentinel. -/
theorem clear_image_rule_counterexample :
    (clearVariantSelection
        (handleVariantSelect (loadProduct videoOnlyProduct) sampleVariant1)).selectedImage =
        "v.mp4" ∧
      specBaseImageRule videoOnlyProduct.media = "/placeholder-image.png" ∧
      (clearVariantSelection
          (handleVariantSelect (loadProduct videoOnlyProduct) sampleVariant1)).selectedImage ≠
        specBaseImageRule videoOnlyProduct.media := by decide

/-- C4 amended: with a product loaded, clear() after any select(V) restores
displayData to the base product exactly, drops the selection, resets the
quantity to 1 and resets the selected image over base media only to the
first IMAGE entry, else the first media entry of any kind, else the
placeholder; the composite equals a plain clear() on the pre-select
state. -/
theorem clear_after_select_roundtrip_amended (s : ViewState) (p : ProductDetails)
    (v : Variant) (h : s.product = some p) :
    (clearVariantSelection (handleVariantSelect s v)).displayData = some p ∧
      (clearVariantSelection (handleVariantSelect s v)).selectedVariant = none ∧
      (clearVariantSelection (handleVariantSelect s v)).quantity = 1 ∧
      (clearVariantSelection (handleVariantSelect s v)).selectedImage =
        amendedBaseImageRule p.media ∧
      clearVariantSelection (handleVariantSelect s v) = clearVariantSelection s := by
  have h2 : (handleVariantSelect s v).product = some p := by
    unfold handleVariantSelect
    rw [h]
  refine ⟨?_, ?_, ?_, ?_, ?_⟩ <;>
    simp [clearVariantSelection, handleVariantSelect, h, h2,
      baseImageSelect_eq_amended]

/-- C4 amended, witness at the loaded sample product and its stock-3
variant. -/
theorem clear_after_select_roundtrip_amended_witness :
    (clearVariantSelection
        (handleVariantSelect (loadProduct sampleProduct) sampleVariant1)).displayData =
        some sampleProduct ∧
      (clearVariantSelection
        (handleVariantSelect (loadProduct sampleProduct) sampleVariant1)).selectedVariant =
        none ∧
      (clearVariantSelection
        (handleVariantSelect (loadProduct sampleProduct) sampleVariant1)).quantity = 1 ∧
      (clearVariantSelection
        (handleVariantSelect (loadProduct sampleProduct) sampleVariant1)).selectedImage =
        amendedBaseImageRule sampleProduct.media ∧
      clearVariantSelection
          (handleVariantSelect (loadProduct sampleProduct) sampleVariant1) =
        clearVariantSelection (loadProduct sampleProduct) :=
  clear_after_select_roundtrip_amended (loadProduct sampleProduct) sampleProduct
    sampleVariant1 rfl

/-- C5 counterexample: base media [VIDEO v.mp4, IMAGE a.jpg], variant media
[VIDEO only]: the source picks the first base media entry v.mp4, a VIDEO,
while the claimed preference order demands the first base IMAGE a.jpg. -/
theorem select_image_rule_counterexample :
    (handleVariantSelect (loadProduct videoFirstProduct) videoOnlyVariant).selectedImage =
        "v.mp4" ∧
      specVariantImageRule videoFirstProduct videoOnlyVariant = "a.jpg" ∧
      (handleVariantSelect (loadProduct videoFirstProduct) videoOnlyVariant).selectedImage ≠
        specVariantImageRule videoFirstProduct videoOnlyVariant := by decide

/-- C5 amended: after select(V) the selected image follows the amended
preference order: with variant media present, the primary IMAGE entry,
else the first IMAGE entry of the variant media, else the first base media
entry of any kind, else the placeholder; with no variant media, the first
base IMAGE entry, else the first base media entry, else the placeholder. -/
theorem select_image_amended (s : ViewState) (p : ProductDetails) (v : Variant)
    (h : s.product = some p) :
    (handleVariantSelect s v).selectedImage = amendedVariantImageRule p v := by
  unfold handleVariantSelect
  rw [h]
  exact selectImage_eq_amended p v

/-- C5 amended, witness at the video-first product and video-only variant. -/
theorem select_image_amended_witness :
    (handleVariantSelect (loadProduct videoFirstProduct) videoOnlyVariant).selectedImage =
      amendedVariantImageRule videoFirstProduct videoOnlyVariant :=
  select_image_amended (loadProduct videoFirstProduct) videoFirstProduct
    videoOnlyVariant rfl

/-- C6: with a product loaded, quantity at least 1 and within the effective
stock, handleAddToCart succeeds and emits the descriptor whose identity is
base-variant when a variant is selected and the base id otherwise, whose
name is the base name suffixed with the joined variant attribute values in
parentheses when a variant is active, whose price is the variant price
else the base selling price, and which carries the variant defining
attributes or none. -/
theorem addToCart_success_descriptor (s : ViewState) (p : ProductDetails)
    (hp : s.product = some p) (h1 : 1 ≤ s.quantity)
    (hst : withinStock (effectiveStock p s.selectedVariant) s.quantity) :
    (handleAddToCart s).2 =
        CartOutcome.added
          (mkCartProduct p s.selectedVariant (effectiveStock p s.selectedVariant))
          s.quantity ∧
      (mkCartProduct p s.selectedVariant (effectiveStock p s.selectedVariant)).id =
        (match s.selectedVariant with
          | some v => toString p.product_id ++ "-" ++ toString v.variant_id
          | none => toString p.product_id) ∧
      (mkCartProduct p s.selectedVariant (effectiveStock p s.selectedVariant)).name =
        (match s.selectedVariant with
          | some v => p.product_name ++ " (" ++
              String.intercalate " / "
                (v.attributes.map VariantDefiningAttribute.value) ++ ")"
          | none => p.product_name) ∧
      (mkCartProduct p s.selectedVariant (effectiveStock p s.selectedVariant)).price =
        (match s.selectedVariant with
          | some v => v.price
          | none => p.selling_price) ∧
      (mkCartProduct p s.selectedVariant
          (effectiveStock p s.selectedVariant)).variant_attributes =
        s.selectedVariant.map Variant.attributes := by
  refine ⟨?_, rfl, rfl, rfl, rfl⟩
  have hlt : stockLtQty (effectiveStock p s.selectedVariant) s.quantity = false := by
    cases hs : effectiveStock p s.selectedVariant with
    | none => rfl
    | some n =>
      rw [hs] at hst
      simp only [withinStock] at hst
      simp only [stockLtQty, decide_eq_false_iff_not, not_lt]
      exact hst
  have hz : ¬ effectiveStock p s.selectedVariant = some 0 := by
    intro heq
    rw [heq] at hst
    simp only [withinStock, Nat.cast_zero] at hst
    omega
  unfold handleAddToCart
  rw [hp]
  dsimp only
  rw [hlt]
  simp only [Bool.false_eq_true, if_false, if_neg hz]

/-- C6, witness at the selected-variant state with stock 3 and quantity 1. -/
theorem addToCart_success_descriptor_witness :
    (handleAddToCart selectedState).2 =
        CartOutcome.added
          (mkCartProduct sampleProduct selectedState.selectedVariant
            (effectiveStock sampleProduct selectedState.selectedVariant))
          selectedState.quantity ∧
      (mkCartProduct sampleProduct selectedState.selectedVariant
          (effectiveStock sampleProduct selectedState.selectedVariant)).id =
        (match selectedState.selectedVariant with
          | some v => toString sampleProduct.product_id ++ "-" ++ toString v.variant_id
          | none => toString sampleProduct.product_id) ∧
      (mkCartProduct sampleProduct selectedState.selectedVariant
          (effectiveStock sampleProduct selectedState.selectedVariant)).name =
        (match selectedState.selectedVariant with
          | some v => sampleProduct.product_name ++ " (" ++
              String.intercalate " / "
                (v.attributes.map VariantDefiningAttribute.value) ++ ")"
          | none => sampleProduct.product_name) ∧
      (mkCartProduct sampleProduct selectedState.selectedVariant
          (effectiveStock sampleProduct selectedState.selectedVariant)).price =
        (match selectedState.selectedVariant with
          | some v => v.price
          | none => sampleProduct.selling_price) ∧
      (mkCartProduct sampleProduct selectedState.selectedVariant
          (effectiveStock sampleProduct selectedState.selectedVariant)).variant_attributes =
        selectedState.selectedVariant.map Variant.attributes :=
  addToCart_success_descriptor selectedState sampleProduct rfl (by decide) (by decide)

/-- C7: whenever handleAddToCart fails with InsufficientStock or
OutOfStock, the quantity, the selected variant, the displayData and the
selected image are all unchanged: the returned state is the input state. -/
theorem addToCart_failure_preserves_state (s : ViewState)
    (h : (handleAddToCart s).2 = CartOutcome.insufficientStock ∨
      (handleAddToCart s).2 = CartOutcome.outOfStock) :
    (handleAddToCart s).1.quantity = s.quantity ∧
      (handleAddToCart s).1.selectedVariant = s.selectedVariant ∧
      (handleAddToCart s).1.displayData = s.displayData ∧
      (handleAddToCart s).1.selectedImage = s.selectedImage ∧
      (handleAddToCart s).1 = s := by
  rw [handleAddToCart_state_eq]
  exact ⟨rfl, rfl, rfl, rfl, rfl⟩

/-- C7, witness at the zero-stock state, where the call fails. -/
theorem addToCart_failure_preserves_state_witness :
    (handleAddToCart zeroStockState).1.quantity = zeroStockState.quantity ∧
      (handleAddToCart zeroStockState).1.selectedVariant =
        zeroStockState.selectedVariant ∧
      (handleAddToCart zeroStockState).1.displayData = zeroStockState.displayData ∧
      (handleAddToCart zeroStockState).1.selectedImage =
        zeroStockState.selectedImage ∧
      (handleAddToCart zeroStockState).1 = zeroStockState :=
  addToCart_failure_preserves_state zeroStockState (Or.inl (by decide))

/-- C8: after any sequence of resolver operations from a loaded product,
displayData is exactly the base product with no variant selected, or
exactly the variant merge of the selected variant: no reachable state
mixes the two shapes. -/
theorem display_state_coherence (p : ProductDetails) (ops : List Op) :
    ((applyOps (loadProduct p) ops).selectedVariant = none ∧
        (applyOps (loadProduct p) ops).displayData = some p) ∨
      ∃ v, (applyOps (loadProduct p) ops).selectedVariant = some v ∧
        (applyOps (loadProduct p) ops).displayData = some (mergeVariant p v) :=
  (coherent_applyOps p ops (loadProduct p) ⟨rfl, Or.inl ⟨rfl, rfl⟩⟩).2

/-- C9: the requested quantity starts at 1 on load, stays at least 1 after
any sequence of operations, changeQuantity floors every result at 1, and
handleAddToCart never modifies the quantity. -/
theorem quantity_invariant (p : ProductDetails) :
    (loadProduct p).quantity = 1 ∧
      (∀ ops : List Op, 1 ≤ (applyOps (loadProduct p) ops).quantity) ∧
      (∀ (s : ViewState) (d : Int), 1 ≤ (handleQuantityChange s d).quantity) ∧
      ∀ s : ViewState, ((handleAddToCart s).1).quantity = s.quantity := by
  refine ⟨rfl, ?_, ?_, ?_⟩
  · intro ops
    exact quantity_ge_one_applyOps ops (loadProduct p) (le_refl 1)
  · intro s d
    exact le_max_left 1 _
  · intro s
    rw [handleAddToCart_state_eq]

/-- C10: every successful handleAddToCart emits a descriptor whose
cost_price, discount_pct, category and brand_name come from the base
product, whether or not a variant is selected. -/
theorem cart_descriptor_base_fields (s : ViewState) (p : ProductDetails)
    (c : CartProduct) (q : Int) (hp : s.product = some p)
    (h : (handleAddToCart s).2 = CartOutcome.added c q) :
    c.cost_price = p.cost_price ∧ c.discount_pct = p.discount_pct ∧
      c.category = jsOr (p.category.map CategoryRef.name) "Uncategorized" ∧
      c.brand_name = p.brand.map BrandRef.name := by
  unfold handleAddToCart at h
  rw [hp] at h
  dsimp only at h
  split at h
  · simp at h
  · split at h
    · simp at h
    · injection h with h1 h2
      rw [← h1]
      exact ⟨rfl, rfl, rfl, rfl⟩

/-- C10, witness at the selected-variant state with stock 3, quantity 1. -/
theorem cart_descriptor_base_fields_witness :
    (mkCartProduct sampleProduct (some sampleVariant1) (some 3)).cost_price =
        sampleProduct.cost_price ∧
      (mkCartProduct sampleProduct (some sampleVariant1) (some 3)).discount_pct =
        sampleProduct.discount_pct ∧
      (mkCartProduct sampleProduct (some sampleVariant1) (some 3)).category =
        jsOr (sampleProduct.category.map CategoryRef.name) "Uncategorized" ∧
      (mkCartProduct sampleProduct (some sampleVariant1) (some 3)).brand_name =
        sampleProduct.brand.map BrandRef.name :=
  cart_descriptor_base_fields selectedState sampleProduct
    (mkCartProduct sampleProduct (some sampleVariant1) (some 3)) 1 rfl (by decide)

end ProductDetail
